import Mathlib

/-!
Shallow embedding of the react-theme-system theme engine
(src/src/ThemeProvider.tsx, src/src/hooks/useStyled.ts,
src/src/hooks/useThemeToggle.ts, src/src/utils/theme-schema.ts)
and proofs about the claims of its specification.

JavaScript runtime values relevant to the engine (strings, numbers,
functions, plain objects) are modelled by `JValue`; objects are
association lists in insertion order, matching the enumeration order
of object literals and spreads. JavaScript truthiness is `jsTruthy`.
Property writes on primitive values (which modern JS rejects) are
modelled as no-ops; no claim exercises that corner.
-/

set_option autoImplicit false

namespace ThemeSystem

/-- A JavaScript value as used by the theme engine: a string, a number,
a function (only `spacing.scale` is ever a function) or a plain object
whose fields are kept in insertion order. -/
inductive JValue where
  | vStr (s : String)
  | vNum (n : Int)
  | vFun
  | vObj (fields : List (String × JValue))

open JValue

/-- JavaScript truthiness of a value: empty strings and the number 0 are
falsy, every function and every object (even `\x7b\x7d`) is truthy. -/
def jsTruthy : JValue → Bool
  | vStr s => !(s == "")
  | vNum n => !(n == 0)
  | vFun => true
  | vObj _ => true

/-- Truthiness of an optional value; `none` models JS `undefined`/absent. -/
def jsTruthyOpt : Option JValue → Bool
  | none => false
  | some v => jsTruthy v

/-- First-match lookup in an object field list, the JS `obj[key]` /
`key in obj` semantics for plain objects. -/
def jsLookup (key : String) : List (String × JValue) → Option JValue
  | [] => none
  | kv :: rest => if kv.1 == key then some kv.2 else jsLookup key rest

/-- The fields of a value when it is an object, `[]` otherwise. -/
def fieldsD : JValue → List (String × JValue)
  | vObj fs => fs
  | _ => []

/-- The keys of an object value, in order (JS `Object.keys`). -/
def jsKeys (v : JValue) : List String :=
  (fieldsD v).map Prod.fst

/-- One step of the resolver walk: usable only when the current value is
truthy, is an object, and has the key (`current && typeof current ===
"object" && key in current` in the source). Objects are always truthy. -/
def jsChild (v : JValue) (key : String) : Option JValue :=
  match v with
  | vObj fs => jsLookup key fs
  | _ => none

/-- The segment-by-segment walk of the resolver (`getToken` and
`getTokenValue` loop bodies): succeeds with the stored value exactly when
every segment is present, fails at the first absent segment. -/
def walkPath (v : JValue) : List String → Option JValue
  | [] => some v
  | k :: ks =>
    match jsChild v k with
    | some c => walkPath c ks
    | none => none

/-- Splits a list of characters at every dot, mirroring the JS
`path.split(".")` (so `""` gives `[""]` and `"a..b"` gives
`["a", "", "b"]`). -/
def splitDots : List Char → List (List Char)
  | [] => [[]]
  | c :: rest =>
    let r := splitDots rest
    if c == '.' then [] :: r
    else
      match r with
      | h :: t => (c :: h) :: t
      | [] => [[c]]

/-- `path.split(".")` on strings. -/
def splitPath (p : String) : List String :=
  (splitDots p.data).map (fun cs => String.mk cs)

/-- The JS `x || y` fallback combination applied to an optional first
operand: yields `x` when `x` is present and truthy, `y` otherwise. -/
def jsOrOpt (x : Option JValue) (y : JValue) : JValue :=
  match x with
  | some v => if jsTruthy v then v else y
  | none => y

/-- The JS `x || y` on optional strings (used for `systemTheme || "light"`). -/
def jsOrStr (x : Option String) (y : String) : String :=
  match x with
  | some s => if s == "" then y else s
  | none => y

/-! ## ThemeProvider state (src/src/ThemeProvider.tsx) -/

/-- A theme configuration: the `light` and the `dark` token tree
(`ThemeConfig` in src/src/types.ts). -/
structure ThemeConfig where
  light : JValue
  dark : JValue

/-- The mutable state owned by `ThemeProvider`: the four `useState` cells
(`currentTheme`, `customTheme`, `isHydrated`, `systemTheme`) together
with the `themes` prop the provider was given. -/
structure ProviderState where
  themes : Option ThemeConfig
  currentTheme : Option String
  customTheme : Option JValue
  isHydrated : Bool
  systemTheme : Option String

/-- `VALID_THEMES` from src/src/ThemeProvider.tsx line 6. -/
def VALID_THEMES : List String := ["light", "dark"]

/-- `isValidTheme` from src/src/ThemeProvider.tsx lines 39-41. -/
def isValidThemeStr (t : String) : Bool :=
  VALID_THEMES.contains t

/-- The hard-coded minimal theme returned by the `theme` memo when no
`themes` prop was supplied (src/src/ThemeProvider.tsx lines 103-115).
The `spacing.scale` arrow function is modelled by `vFun`. -/
def minimalTheme : JValue :=
  vObj [
    ("colors", vObj [
      ("primary", vStr "#000"), ("secondary", vStr "#666"),
      ("accent", vStr "#007bff"), ("background", vStr "#fff"),
      ("surface", vStr "#f8f9fa"),
      ("text", vObj [
        ("primary", vStr "#000"), ("secondary", vStr "#666"),
        ("disabled", vStr "#999")]),
      ("border", vStr "#dee2e6"), ("error", vStr "#dc3545"),
      ("warning", vStr "#ffc107"), ("success", vStr "#28a745"),
      ("info", vStr "#17a2b8")]),
    ("spacing", vObj [
      ("xs", vStr "0.25rem"), ("sm", vStr "0.5rem"), ("md", vStr "1rem"),
      ("lg", vStr "1.5rem"), ("xl", vStr "3rem"), ("xxl", vStr "4rem"),
      ("scale", vFun)]),
    ("typography", vObj [
      ("fontFamily", vObj [
        ("primary", vStr "system-ui"), ("secondary", vStr "Georgia"),
        ("mono", vStr "monospace")]),
      ("fontSize", vObj [
        ("xs", vStr "0.75rem"), ("sm", vStr "0.875rem"),
        ("base", vStr "1rem"), ("lg", vStr "1.125rem"),
        ("xl", vStr "1.25rem"), ("2xl", vStr "1.5rem"),
        ("3xl", vStr "1.875rem"), ("4xl", vStr "2.25rem")]),
      ("fontWeight", vObj [
        ("light", vNum 300), ("normal", vNum 400), ("medium", vNum 500),
        ("semibold", vNum 600), ("bold", vNum 700)]),
      ("lineHeight", vObj [
        ("tight", vStr "1.25"), ("normal", vStr "1.5"),
        ("relaxed", vStr "1.75")])]),
    ("shadows", vObj [
      ("sm", vStr "0 1px 2px 0 rgba(0, 0, 0, 0.05)"),
      ("md", vStr "0 4px 6px -1px rgba(0, 0, 0, 0.1)"),
      ("lg", vStr "0 10px 15px -3px rgba(0, 0, 0, 0.1)"),
      ("xl", vStr "0 20px 25px -5px rgba(0, 0, 0, 0.1)"),
      ("2xl", vStr "0 25px 50px -12px rgba(0, 0, 0, 0.25)"),
      ("inner", vStr "inset 0 2px 4px 0 rgba(0, 0, 0, 0.06)"),
      ("none", vStr "none")]),
    ("borderRadius", vObj [
      ("none", vStr "0"), ("sm", vStr "0.125rem"), ("md", vStr "0.375rem"),
      ("lg", vStr "0.5rem"), ("xl", vStr "0.75rem"),
      ("full", vStr "9999px")]),
    ("breakpoints", vObj [
      ("sm", vStr "640px"), ("md", vStr "768px"), ("lg", vStr "1024px"),
      ("xl", vStr "1280px"), ("2xl", vStr "1536px")]),
    ("transitions", vObj [
      ("fast", vStr "150ms"), ("normal", vStr "300ms"),
      ("slow", vStr "500ms"),
      ("ease", vObj [
        ("in", vStr "ease-in"), ("out", vStr "ease-out"),
        ("inOut", vStr "ease-in-out")])]),
    ("zIndex", vObj [
      ("hide", vNum (-1)), ("auto", vNum 0), ("base", vNum 0),
      ("docked", vNum 10), ("dropdown", vNum 1000), ("sticky", vNum 1100),
      ("banner", vNum 1200), ("overlay", vNum 1300), ("modal", vNum 1400),
      ("popover", vNum 1500), ("skipLink", vNum 1600),
      ("toast", vNum 1700), ("tooltip", vNum 1800)])]

/-- Replaces the value of one base field by the overriding value when
the override has its key. -/
def overrideWith (ov : List (String × JValue)) (kv : String × JValue) :
    String × JValue :=
  match jsLookup kv.1 ov with
  | some v => (kv.1, v)
  | none => kv

/-- The JS object spread `\x7b...base, ...override\x7d`: the keys of
`base` in order, values overridden by `override` where present, followed
by the keys only in `override`, in their order. -/
def spreadFields (base override : List (String × JValue)) :
    List (String × JValue) :=
  base.map (overrideWith override)
  ++ override.filter (fun kv => (jsLookup kv.1 base).isNone)

/-- The shallow per-top-level-category merge `\x7b...baseTheme,
...customTheme\x7d` of src/src/ThemeProvider.tsx line 120. -/
def mergeSpread (base override : JValue) : JValue :=
  vObj (spreadFields (fieldsD base) (fieldsD override))

/-- The `theme` memo of src/src/ThemeProvider.tsx lines 102-121: minimal
theme when no `themes` prop, the light tree before `currentTheme` is
established, otherwise the active variant tree with the custom override
spread on top when an override exists. -/
def effectiveTheme (st : ProviderState) : JValue :=
  match st.themes with
  | none => minimalTheme
  | some cfg =>
    match st.currentTheme with
    | none => cfg.light
    | some ct =>
      let baseTheme := if ct == "dark" then cfg.dark else cfg.light
      match st.customTheme with
      | some c => mergeSpread baseTheme c
      | none => baseTheme

/-- `getToken` from src/src/ThemeProvider.tsx lines 124-140, returning
the resolved value together with the list of `console.warn` diagnostics
it emits. Before hydration or without a `themes` prop it returns
`fallback || ""` without reading the tree; otherwise it walks the path
and falls back (with a diagnostic) at the first absent segment. -/
def getToken (st : ProviderState) (path : String)
    (fallback : Option JValue) : JValue × List String :=
  if !st.isHydrated || st.themes.isNone then
    (jsOrOpt fallback (vStr ""), [])
  else
    match walkPath (effectiveTheme st) (splitPath path) with
    | some v => (v, [])
    | none => (jsOrOpt fallback (vStr ""),
               ["Theme token not found: " ++ path])

/-- The outcome of a `setTheme` call: the next state, the value handed to
the persistence write (if any), the value handed to the `onChange`
observer (if any), and the `console.warn` diagnostics. -/
structure SetThemeResult where
  state : ProviderState
  persisted : Option String
  notified : Option String
  warnings : List String

/-- `persistTheme` from src/src/ThemeProvider.tsx lines 92-100: writes
the variant name to storage only when persistence is enabled (the
browser-window existence check and the storage-failure swallowing are
environment effects outside this model). -/
def persistTheme (enablePersistence : Bool) (t : String) : Option String :=
  if enablePersistence then some t else none

/-- `setTheme` from src/src/ThemeProvider.tsx lines 151-160: rejects a
name outside `VALID_THEMES` with a diagnostic and no state change;
otherwise sets the current theme, persists it and notifies `onChange`. -/
def setTheme (st : ProviderState) (enablePersistence : Bool)
    (newTheme : String) : SetThemeResult :=
  if !isValidThemeStr newTheme then
    { state := st, persisted := none, notified := none,
      warnings := ["Invalid theme: " ++ newTheme ++
        ". Valid themes are: light, dark"] }
  else
    { state := { st with currentTheme := some newTheme },
      persisted := persistTheme enablePersistence newTheme,
      notified := some newTheme,
      warnings := [] }

/-- The deep set of `updateTheme` (src/src/ThemeProvider.tsx lines
167-183): walks the override tree along the path, replacing falsy or
absent intermediate values by fresh empty objects, and writes the value
at the last segment. A write into a primitive is modelled as a no-op. -/
def deepSet (v : JValue) (keys : List String) (value : JValue) : JValue :=
  match keys with
  | [] => v
  | [k] =>
    match v with
    | vObj fs =>
      vObj (if (jsLookup k fs).isSome then
              fs.map (fun kv => if kv.1 == k then (k, value) else kv)
            else fs ++ [(k, value)])
    | _ => v
  | k :: rest =>
    match v with
    | vObj fs =>
      let child :=
        match jsLookup k fs with
        | some c => if jsTruthy c then c else vObj []
        | none => vObj []
      let newChild := deepSet child rest value
      vObj (if (jsLookup k fs).isSome then
              fs.map (fun kv => if kv.1 == k then (k, newChild) else kv)
            else fs ++ [(k, newChild)])
    | _ => v

/-- `updateTheme` from src/src/ThemeProvider.tsx lines 167-183: deep-sets
the value at the path inside the custom override tree, starting from the
empty object when no override exists yet (`\x7b...null\x7d` is
`\x7b\x7d`). -/
def updateTheme (st : ProviderState) (path : String) (value : JValue) :
    ProviderState :=
  let prev :=
    match st.customTheme with
    | some c => vObj (fieldsD c)
    | none => vObj []
  { st with customTheme := some (deepSet prev (splitPath path) value) }

/-- `resetCustomTheme` from src/src/ThemeProvider.tsx line 194. -/
def resetCustomTheme (st : ProviderState) : ProviderState :=
  { st with customTheme := none }

/-! ## useStyled (src/src/hooks/useStyled.ts)

The hook closes over the `theme` value and the `isHydrated` flag of the
provider, so the embedded functions take them as the first two
arguments. -/

/-- `getTokenValue` from src/src/hooks/useStyled.ts lines 7-24: the same
walk as `getToken` but guarded only by `isHydrated`. Returns the value
and the emitted diagnostics. -/
def getTokenValue (isHydrated : Bool) (theme : JValue) (path : String)
    (fallback : Option JValue) : JValue × List String :=
  if !isHydrated then (jsOrOpt fallback (vStr ""), [])
  else
    match walkPath theme (splitPath path) with
    | some v => (v, [])
    | none => (jsOrOpt fallback (vStr ""),
               ["Theme token not found: " ++ path])

/-- `styled` from src/src/hooks/useStyled.ts lines 26-38: every entry
whose value is a string containing a dot is resolved as a token path with
the per-property fallback, everything else passes through verbatim. -/
def styled (isHydrated : Bool) (theme : JValue)
    (styles : List (String × JValue))
    (fallbacks : Option (List (String × JValue))) :
    List (String × JValue) :=
  styles.map (fun pv =>
    match pv.2 with
    | vStr s =>
      if s.data.contains '.' then
        let fb := fallbacks.bind (jsLookup pv.1)
        (pv.1, (getTokenValue isHydrated theme s fb).1)
      else pv
    | _ => pv)

/-- `getColor` from src/src/hooks/useStyled.ts lines 40-43. -/
def getColor (isHydrated : Bool) (theme : JValue) (color : String)
    (fallback : Option JValue) : JValue :=
  if !isHydrated then jsOrOpt fallback (vStr "#000000")
  else jsOrOpt (walkPath theme ["colors", color])
         (jsOrOpt fallback (vStr "#000000"))

/-- `getSpacing` from src/src/hooks/useStyled.ts lines 45-48. -/
def getSpacing (isHydrated : Bool) (theme : JValue) (spacing : String)
    (fallback : Option JValue) : JValue :=
  if !isHydrated then jsOrOpt fallback (vStr "0")
  else jsOrOpt (walkPath theme ["spacing", spacing])
         (jsOrOpt fallback (vStr "0"))

/-- `getTypography` from src/src/hooks/useStyled.ts lines 50-56 (reads
`theme.typography.fontSize`, base zero-value `1rem`). -/
def getTypography (isHydrated : Bool) (theme : JValue) (size : String)
    (fallback : Option JValue) : JValue :=
  if !isHydrated then jsOrOpt fallback (vStr "1rem")
  else jsOrOpt (walkPath theme ["typography", "fontSize", size])
         (jsOrOpt fallback (vStr "1rem"))

/-- `getShadow` from src/src/hooks/useStyled.ts lines 58-61. -/
def getShadow (isHydrated : Bool) (theme : JValue) (shadow : String)
    (fallback : Option JValue) : JValue :=
  if !isHydrated then jsOrOpt fallback (vStr "none")
  else jsOrOpt (walkPath theme ["shadows", shadow])
         (jsOrOpt fallback (vStr "none"))

/-- `getBorderRadius` from src/src/hooks/useStyled.ts lines 63-66. -/
def getBorderRadius (isHydrated : Bool) (theme : JValue) (radius : String)
    (fallback : Option JValue) : JValue :=
  if !isHydrated then jsOrOpt fallback (vStr "0")
  else jsOrOpt (walkPath theme ["borderRadius", radius])
         (jsOrOpt fallback (vStr "0"))

/-- `getTransition` from src/src/hooks/useStyled.ts lines 68-71. -/
def getTransition (isHydrated : Bool) (theme : JValue) (transition : String)
    (fallback : Option JValue) : JValue :=
  if !isHydrated then jsOrOpt fallback (vStr "none")
  else jsOrOpt (walkPath theme ["transitions", transition])
         (jsOrOpt fallback (vStr "none"))

/-- `getFontWeight` from src/src/hooks/useStyled.ts lines 73-76. -/
def getFontWeight (isHydrated : Bool) (theme : JValue) (weight : String)
    (fallback : Option JValue) : JValue :=
  if !isHydrated then jsOrOpt fallback (vNum 400)
  else jsOrOpt (walkPath theme ["typography", "fontWeight", weight])
         (jsOrOpt fallback (vNum 400))

/-- `getFontFamily` from src/src/hooks/useStyled.ts lines 78-81. -/
def getFontFamily (isHydrated : Bool) (theme : JValue) (family : String)
    (fallback : Option JValue) : JValue :=
  if !isHydrated then jsOrOpt fallback (vStr "sans-serif")
  else jsOrOpt (walkPath theme ["typography", "fontFamily", family])
         (jsOrOpt fallback (vStr "sans-serif"))

/-! ## useThemeToggleWithSystem (src/src/hooks/useThemeToggle.ts) -/

/-- `cycleTheme` from src/src/hooks/useThemeToggle.ts lines 172-183:
no-op before hydration; from `light` set `dark`; from `dark` set
`systemTheme || "light"`; from anything else set `light`. Only the
resulting provider state is kept (the persistence and notification
effects go through `setTheme`). -/
def cycleTheme (st : ProviderState) (enablePersistence : Bool) :
    ProviderState :=
  if !st.isHydrated then st
  else if st.currentTheme == some "light" then
    (setTheme st enablePersistence "dark").state
  else if st.currentTheme == some "dark" then
    (setTheme st enablePersistence (jsOrStr st.systemTheme "light")).state
  else
    (setTheme st enablePersistence "light").state

/-! ## Validator (src/src/utils/theme-schema.ts)

The three `test` regexes of the source are translated into hand-written
matchers over character lists; each matcher recognises exactly the
language of its anchored regex. The `\s` class is modelled by the ASCII
whitespace characters. -/

/-- The JS `\s` character class (ASCII part). -/
def jsWs (c : Char) : Bool :=
  c == ' ' || c == '\t' || c == '\n' || c == '\r' ||
  c == Char.ofNat 11 || c == Char.ofNat 12

/-- Drop leading `\s*`. -/
def dropWs : List Char → List Char
  | [] => []
  | c :: rest => if jsWs c then dropWs rest else c :: rest

/-- Drop a leading run of digits. -/
def dropDigits : List Char → List Char
  | [] => []
  | c :: rest => if c.isDigit then dropDigits rest else c :: rest

/-- Consume `\d+`: at least one digit, maximal run. -/
def chompDigits : List Char → Option (List Char)
  | [] => none
  | c :: rest => if c.isDigit then some (dropDigits rest) else none

/-- Drop a leading run of characters in `[\d.]`. -/
def dropNumDot : List Char → List Char
  | [] => []
  | c :: rest =>
    if c.isDigit || c == '.' then dropNumDot rest else c :: rest

/-- Consume `[\d.]+`: at least one digit or dot, maximal run. -/
def chompNumDot : List Char → Option (List Char)
  | [] => none
  | c :: rest =>
    if c.isDigit || c == '.' then some (dropNumDot rest) else none

/-- Consume one expected character. -/
def expectChar (c : Char) : List Char → Option (List Char)
  | [] => none
  | x :: rest => if x == c then some rest else none

/-- Consume an expected literal. -/
def expectLit : List Char → List Char → Option (List Char)
  | [], l => some l
  | _ :: _, [] => none
  | p :: ps, x :: xs => if x == p then expectLit ps xs else none

/-- A lowercase hexadecimal digit (the `[0-9A-F]` class of the color
regex after case folding). -/
def isHexLower (c : Char) : Bool :=
  c.isDigit || ['a', 'b', 'c', 'd', 'e', 'f'].contains c

/-- `#([0-9A-F]{3})\x7b1,2\x7d` on a case-folded string: a hash followed
by exactly three or exactly six hex digits. -/
def hexColorTest : List Char → Bool
  | '#' :: hs => (hs.length == 3 || hs.length == 6) && hs.all isHexLower
  | _ => false

/-- `\s*\d+\s*` followed by one expected character. -/
def wsNumWs (close : Char) (l : List Char) : Option (List Char) := do
  let l ← chompDigits (dropWs l)
  expectChar close (dropWs l)

/-- `rgb\(\s*\d+\s*,\s*\d+\s*,\s*\d+\s*\)` anchored on both sides. -/
def rgbTest (l : List Char) : Bool :=
  (do
    let l ← expectLit "rgb(".data l
    let l ← wsNumWs ',' l
    let l ← wsNumWs ',' l
    let l ← wsNumWs ')' l
    guard l.isEmpty).isSome

/-- `rgba\(\s*\d+\s*,\s*\d+\s*,\s*\d+\s*,\s*[\d.]+\s*\)` anchored. -/
def rgbaTest (l : List Char) : Bool :=
  (do
    let l ← expectLit "rgba(".data l
    let l ← wsNumWs ',' l
    let l ← wsNumWs ',' l
    let l ← wsNumWs ',' l
    let l ← chompNumDot (dropWs l)
    let l ← expectChar ')' (dropWs l)
    guard l.isEmpty).isSome

/-- `\s*\d+%\s*` followed by one expected character. -/
def wsNumPctWs (close : Char) (l : List Char) : Option (List Char) := do
  let l ← chompDigits (dropWs l)
  let l ← expectChar '%' l
  expectChar close (dropWs l)

/-- `hsl\(\s*\d+\s*,\s*\d+%\s*,\s*\d+%\s*\)` anchored. -/
def hslTest (l : List Char) : Bool :=
  (do
    let l ← expectLit "hsl(".data l
    let l ← wsNumWs ',' l
    let l ← wsNumPctWs ',' l
    let l ← wsNumPctWs ')' l
    guard l.isEmpty).isSome

/-- `hsla\(\s*\d+\s*,\s*\d+%\s*,\s*\d+%\s*,\s*[\d.]+\s*\)` anchored. -/
def hslaTest (l : List Char) : Bool :=
  (do
    let l ← expectLit "hsla(".data l
    let l ← wsNumWs ',' l
    let l ← wsNumPctWs ',' l
    let l ← wsNumPctWs ',' l
    let l ← chompNumDot (dropWs l)
    let l ← expectChar ')' (dropWs l)
    guard l.isEmpty).isSome

/-- ASCII case folding of one character (the effect of the regex `/i`
flag on the letters appearing in the color patterns). -/
def lowerChar (c : Char) : Char :=
  if 65 ≤ c.toNat && c.toNat ≤ 90 then Char.ofNat (c.toNat + 32) else c

/-- The anchored, case-insensitive color regex of `validateColor`
(src/src/utils/theme-schema.ts line 38), applied to the case-folded
string. -/
def colorRegexTest (s : String) : Bool :=
  let t := s.data.map lowerChar
  hexColorTest t || rgbTest t || rgbaTest t || hslTest t || hslaTest t ||
  t == "transparent".data || t == "currentcolor".data ||
  t == "inherit".data || t == "initial".data || t == "unset".data

/-- `validateColor` from src/src/utils/theme-schema.ts lines 34-40:
false for falsy or non-string values, else the color regex. -/
def validateColor : JValue → Bool
  | vStr s => if s == "" then false else colorRegexTest s
  | _ => false

/-- The CSS length units of the spacing regex, in source order. -/
def lengthUnits : List String :=
  ["px", "rem", "em", "vh", "vw", "%", "ch", "ex", "in", "cm", "mm",
   "pt", "pc"]

/-- `\d+(\.\d+)?(px|rem|em|vh|vw|%|ch|ex|in|cm|mm|pt|pc)` anchored:
digits, an optional fraction, then exactly one unit ending the string. -/
def lengthUnitTest (l : List Char) : Bool :=
  match chompDigits l with
  | none => false
  | some r =>
    match r with
    | '.' :: r2 =>
      match chompDigits r2 with
      | none => false
      | some r3 => lengthUnits.contains (String.mk r3)
    | _ => lengthUnits.contains (String.mk r)

/-- The anchored spacing regex `^(\d+(\.\d+)?(units)|0)$` of
`validateSpacing` (src/src/utils/theme-schema.ts line 47). -/
def spacingRegexTest (s : String) : Bool :=
  lengthUnitTest s.data || s.data == ['0']

/-- `validateSpacing` from src/src/utils/theme-schema.ts lines 43-48:
false for falsy or non-string values, else the spacing regex. -/
def validateSpacing : JValue → Bool
  | vStr s => if s == "" then false else spacingRegexTest s
  | _ => false

/-- `^[a-zA-Z\s,]+$`: non-empty, only letters, whitespace and commas. -/
def fontAlphaTest (l : List Char) : Bool :=
  !l.isEmpty && l.all (fun c => c.isAlpha || jsWs c || c == ',')

/-- `^\d+(\.\d+)?$`: a plain decimal number filling the whole string. -/
def plainNumberTest (l : List Char) : Bool :=
  match chompDigits l with
  | none => false
  | some r =>
    match r with
    | [] => true
    | '.' :: r2 =>
      match chompDigits r2 with
      | some r3 => r3.isEmpty
      | none => false
    | _ => false

/-- The anchored font regex `^([a-zA-Z\s,]+|inherit|initial|unset)$` of
`validateTypography`. -/
def fontRegexTest (s : String) : Bool :=
  fontAlphaTest s.data || s.data == "inherit".data ||
  s.data == "initial".data || s.data == "unset".data

/-- The anchored size regex of `validateTypography`, identical to the
spacing regex. -/
def sizeRegexTest (s : String) : Bool :=
  lengthUnitTest s.data || s.data == ['0']

/-- The anchored line-height regex
`^(\d+(\.\d+)?|normal|inherit|initial|unset)$` of `validateTypography`. -/
def lineHeightRegexTest (s : String) : Bool :=
  plainNumberTest s.data || s.data == "normal".data ||
  s.data == "inherit".data || s.data == "initial".data ||
  s.data == "unset".data

/-- `validateTypography` from src/src/utils/theme-schema.ts lines 52-67:
numbers must be font weights in [100, 900]; strings must match the font,
size or line-height regex; anything else is invalid. -/
def validateTypography : JValue → Bool
  | vNum n => decide (100 ≤ n) && decide (n ≤ 900)
  | vStr s => fontRegexTest s || sizeRegexTest s || lineHeightRegexTest s
  | _ => false

/-- `getNestedValue` from src/src/utils/theme-schema.ts lines 29-31:
`path.split(".").reduce((current, key) => current?.[key], obj)`, with
property access on a non-object yielding `undefined`. -/
def getNestedValue (obj : JValue) (path : String) : Option JValue :=
  (splitPath path).foldl
    (fun cur key => cur.bind (fun v => jsChild v key)) (some obj)

/-- `ThemeValidationResult` from src/src/utils/theme-schema.ts. -/
structure ThemeValidationResult where
  isValid : Bool
  errors : List String
  warnings : List String

/-- `REQUIRED_COLOR_PROPERTIES` (src/src/utils/theme-schema.ts 11-15). -/
def REQUIRED_COLOR_PROPERTIES : List String :=
  ["primary", "secondary", "accent", "background", "surface",
   "text.primary", "text.secondary", "text.disabled",
   "border", "error", "warning", "success", "info"]

/-- `REQUIRED_SPACING_PROPERTIES` (src/src/utils/theme-schema.ts 17-19). -/
def REQUIRED_SPACING_PROPERTIES : List String :=
  ["xs", "sm", "md", "lg", "xl", "xxl", "scale"]

/-- `REQUIRED_TYPOGRAPHY_PROPERTIES` (src/src/utils/theme-schema.ts
21-26). -/
def REQUIRED_TYPOGRAPHY_PROPERTIES : List String :=
  ["fontFamily.primary", "fontFamily.secondary", "fontFamily.mono",
   "fontSize.xs", "fontSize.sm", "fontSize.base", "fontSize.lg",
   "fontSize.xl", "fontSize.2xl", "fontSize.3xl", "fontSize.4xl",
   "fontWeight.light", "fontWeight.normal", "fontWeight.medium",
   "fontWeight.semibold", "fontWeight.bold",
   "lineHeight.tight", "lineHeight.normal", "lineHeight.relaxed"]

/-- The JS template-literal rendering of a value inside a diagnostic
message. -/
def toDisplay : JValue → String
  | vStr s => s
  | vNum n => toString n
  | vFun => "function"
  | vObj _ => "[object Object]"

/-- Whether a value is a function (the `typeof value === "function"`
check for `spacing.scale`). -/
def isFunValue : JValue → Bool
  | vFun => true
  | _ => false

/-- Whether a value is an object (`typeof value === "object"`). -/
def isObjValue : JValue → Bool
  | vObj _ => true
  | _ => false

/-- The errors pushed for one required color property (validateTheme
lines 75-82): a missing-property error when the looked-up value is
absent or falsy, an invalid-value error when it fails the color regex.
The lookup is `getNestedValue(theme, prop)` on the WHOLE theme object,
exactly as in the source (the property name carries no `colors.`
prefix). -/
def colorPropErrors (theme : JValue) (themeName : String)
    (prop : String) : List String :=
  match getNestedValue theme prop with
  | none =>
    ["Missing required color property: " ++ prop ++ " in " ++
     themeName ++ " theme"]
  | some v =>
    if !jsTruthy v then
      ["Missing required color property: " ++ prop ++ " in " ++
       themeName ++ " theme"]
    else if !validateColor v then
      ["Invalid color value for " ++ prop ++ " in " ++ themeName ++
       " theme: " ++ toDisplay v]
    else []

/-- The errors pushed for one required spacing property (validateTheme
lines 85-94), including the function check for `scale`. -/
def spacingPropErrors (theme : JValue) (themeName : String)
    (prop : String) : List String :=
  match getNestedValue theme prop with
  | none =>
    ["Missing required spacing property: " ++ prop ++ " in " ++
     themeName ++ " theme"]
  | some v =>
    if !jsTruthy v then
      ["Missing required spacing property: " ++ prop ++ " in " ++
       themeName ++ " theme"]
    else if !(prop == "scale") && !validateSpacing v then
      ["Invalid spacing value for " ++ prop ++ " in " ++ themeName ++
       " theme: " ++ toDisplay v]
    else if prop == "scale" && !isFunValue v then
      ["Spacing scale must be a function in " ++ themeName ++ " theme"]
    else []

/-- The error/warning pair pushed for one required typography property
(validateTheme lines 97-104): a missing-property ERROR when absent or
falsy, a WARNING (not an error) when present but failing
`validateTypography`. -/
def typographyPropIssues (theme : JValue) (themeName : String)
    (prop : String) : List String × List String :=
  match getNestedValue theme prop with
  | none =>
    (["Missing required typography property: " ++ prop ++ " in " ++
      themeName ++ " theme"], [])
  | some v =>
    if !jsTruthy v then
      (["Missing required typography property: " ++ prop ++ " in " ++
        themeName ++ " theme"], [])
    else if !validateTypography v then
      ([], ["Potentially invalid typography value for " ++ prop ++
        " in " ++ themeName ++ " theme: " ++ toDisplay v])
    else ([], [])

/-- The error pushed when a top-level category is absent or not an
object (validateTheme lines 107-129 for shadows, borderRadius,
breakpoints, transitions, zIndex). -/
def categoryObjectError (theme : JValue) (themeName : String)
    (cat : String) : List String :=
  match jsChild theme cat with
  | some v =>
    if jsTruthy v && isObjValue v then []
    else ["Missing or invalid " ++ cat ++ " object in " ++ themeName ++
          " theme"]
  | none =>
    ["Missing or invalid " ++ cat ++ " object in " ++ themeName ++
     " theme"]

/-- `validateTheme` from src/src/utils/theme-schema.ts lines 70-136. -/
def validateTheme (theme : JValue) (themeName : String) :
    ThemeValidationResult :=
  let colorErrs :=
    (REQUIRED_COLOR_PROPERTIES.map (colorPropErrors theme themeName)).flatten
  let spacingErrs :=
    (REQUIRED_SPACING_PROPERTIES.map
      (spacingPropErrors theme themeName)).flatten
  let typPairs :=
    REQUIRED_TYPOGRAPHY_PROPERTIES.map (typographyPropIssues theme themeName)
  let typErrs := (typPairs.map Prod.fst).flatten
  let typWarns := (typPairs.map Prod.snd).flatten
  let objErrs :=
    (["shadows", "borderRadius", "breakpoints", "transitions",
      "zIndex"].map (categoryObjectError theme themeName)).flatten
  let errors := colorErrs ++ spacingErrs ++ typErrs ++ objErrs
  { isValid := errors.isEmpty, errors := errors, warnings := typWarns }

/-- `validateThemeConfig` from src/src/utils/theme-schema.ts lines
139-183. The config object is modelled by its two possibly-absent
fields. Cross-variant key asymmetry yields warnings, never errors. -/
def validateThemeConfig (light dark : Option JValue) :
    ThemeValidationResult :=
  let lightPart : List String × List String :=
    if !jsTruthyOpt light then (["Missing light theme configuration"], [])
    else
      match light with
      | some t =>
        let r := validateTheme t "light"
        (r.errors, r.warnings)
      | none => ([], [])
  let darkPart : List String × List String :=
    if !jsTruthyOpt dark then (["Missing dark theme configuration"], [])
    else
      match dark with
      | some t =>
        let r := validateTheme t "dark"
        (r.errors, r.warnings)
      | none => ([], [])
  let consistency : List String :=
    match light, dark with
    | some l, some d =>
      if jsTruthy l && jsTruthy d then
        let lightKeys := jsKeys l
        let darkKeys := jsKeys d
        let missingInDark :=
          lightKeys.filter (fun k => !darkKeys.contains k)
        let missingInLight :=
          darkKeys.filter (fun k => !lightKeys.contains k)
        (if !missingInDark.isEmpty then
          ["Dark theme missing properties: " ++
           String.intercalate ", " missingInDark]
         else []) ++
        (if !missingInLight.isEmpty then
          ["Light theme missing properties: " ++
           String.intercalate ", " missingInLight]
         else [])
      else []
    | _, _ => []
  let errors := lightPart.1 ++ darkPart.1
  let warnings := lightPart.2 ++ darkPart.2 ++ consistency
  { isValid := errors.isEmpty, errors := errors, warnings := warnings }

/-- The `validate` closure produced by `createThemeValidator`
(src/src/utils/theme-schema.ts lines 186-198): in strict mode all
warnings are promoted to errors before `isValid` is recomputed. -/
def validatorValidate (strict : Bool) (light dark : Option JValue) :
    ThemeValidationResult :=
  let r := validateThemeConfig light dark
  if strict && !r.warnings.isEmpty then
    let errors := r.errors ++ r.warnings
    { isValid := errors.isEmpty, errors := errors, warnings := [] }
  else r

/-- `themeValidator.validate`: the exported default lenient validator
(src/src/utils/theme-schema.ts line 215). -/
def themeValidatorValidate (light dark : Option JValue) :
    ThemeValidationResult :=
  validatorValidate false light dark

/-! ## Concrete fixtures used by witnesses and counterexamples -/

/-- A small light token tree used as test input. -/
def sampleLightTree : JValue :=
  vObj [
    ("colors", vObj [
      ("primary", vStr "#111111"), ("secondary", vStr "#222222"),
      ("text", vObj [("primary", vStr "#101010")])]),
    ("spacing", vObj [("md", vStr "1rem")]),
    ("typography", vObj [("fontSize", vObj [("lg", vStr "1.125rem")])])]

/-- A small dark token tree used as test input. -/
def sampleDarkTree : JValue :=
  vObj [
    ("colors", vObj [
      ("primary", vStr "#eeeeee"), ("secondary", vStr "#dddddd"),
      ("text", vObj [("primary", vStr "#fafafa")])]),
    ("spacing", vObj [("md", vStr "1.25rem")]),
    ("typography", vObj [("fontSize", vObj [("lg", vStr "1.25rem")])])]

/-- A sample theme configuration pairing the two sample trees. -/
def sampleCfg : ThemeConfig :=
  { light := sampleLightTree, dark := sampleDarkTree }

/-- A hydrated provider state on the light variant with no override and
no detected system preference. -/
def readyState : ProviderState :=
  { themes := some sampleCfg, currentTheme := some "light",
    customTheme := none, isHydrated := true, systemTheme := none }

/-! ## Claims -/

/-- Claim C1: for every dot-separated token path whose every segment is
present in the effective theme tree, with the provider hydrated and a
themes config supplied, `getToken` returns exactly the value stored at
the path, with no fallback substitution and no diagnostic; the useStyled
`getTokenValue` walk agrees. -/
theorem getToken_present_returns_stored (st : ProviderState)
    (cfg : ThemeConfig) (path : String) (v : JValue) (fb : Option JValue)
    (hh : st.isHydrated = true) (ht : st.themes = some cfg)
    (hw : walkPath (effectiveTheme st) (splitPath path) = some v) :
    getToken st path fb = (v, []) ∧
    (∀ theme : JValue, walkPath theme (splitPath path) = some v →
      getTokenValue true theme path fb = (v, [])) := by
  constructor
  · simp [getToken, hh, ht, hw]
  · intro theme hw2
    simp [getTokenValue, hw2]

/-- Witness for C1 at the sample state: `colors.primary` resolves to the
stored `#111111` even though a fallback is supplied. -/
theorem getToken_present_returns_stored_witness :
    getToken readyState "colors.primary" (some (vNum 7)) =
      (vStr "#111111", []) ∧
    (∀ theme : JValue,
      walkPath theme (splitPath "colors.primary") = some (vStr "#111111") →
      getTokenValue true theme "colors.primary" (some (vNum 7)) =
        (vStr "#111111", [])) :=
  getToken_present_returns_stored readyState sampleCfg "colors.primary"
    (vStr "#111111") (some (vNum 7)) rfl rfl rfl

/-- Counterexample to claim C2 as stated: for the absent path
`colors.missing` and the fallback value 0 (a falsy number), `getToken`
returns the empty string, not the supplied fallback, because the source
combines the fallback with `||`. -/
theorem getToken_absent_falsy_fallback_cex :
    (getToken readyState "colors.missing" (some (vNum 0))).1 = vStr "" ∧
    vStr "" ≠ vNum 0 :=
  ⟨rfl, fun h => JValue.noConfusion h⟩

/-- Claim C2 as amended: for every path with an absent segment, a ready
`getToken` emits the missing-token diagnostic and returns the fallback
when the fallback is truthy, and the hard-coded empty string otherwise;
it never throws (the function is total). -/
theorem getToken_absent_returns_truthy_fallback_or_empty
    (st : ProviderState) (cfg : ThemeConfig) (path : String)
    (fb : Option JValue)
    (hh : st.isHydrated = true) (ht : st.themes = some cfg)
    (hw : walkPath (effectiveTheme st) (splitPath path) = none) :
    getToken st path fb =
      (jsOrOpt fb (vStr ""), ["Theme token not found: " ++ path]) ∧
    (∀ v, fb = some v → jsTruthy v = true →
      (getToken st path fb).1 = v) := by
  have h1 : getToken st path fb =
      (jsOrOpt fb (vStr ""), ["Theme token not found: " ++ path]) := by
    simp [getToken, hh, ht, hw]
  refine ⟨h1, ?_⟩
  intro v hv htr
  rw [h1, hv]
  simp [jsOrOpt, htr]

/-- Witness for the amended C2: a truthy string fallback is returned
as-is for an absent path, together with the diagnostic. -/
theorem getToken_absent_returns_truthy_fallback_or_empty_witness :
    getToken readyState "colors.missing" (some (vStr "#fb")) =
      (jsOrOpt (some (vStr "#fb")) (vStr ""),
       ["Theme token not found: " ++ "colors.missing"]) ∧
    (∀ v, (some (vStr "#fb") : Option JValue) = some v →
      jsTruthy v = true →
      (getToken readyState "colors.missing" (some (vStr "#fb"))).1 = v) :=
  getToken_absent_returns_truthy_fallback_or_empty readyState sampleCfg
    "colors.missing" (some (vStr "#fb")) rfl rfl rfl

/-- Claim C3: while the state machine is not ready (`isHydrated` false),
the resolver and every category getter return the caller-supplied
fallback when it is truthy and their hard-coded zero-value otherwise
(empty string for generic resolution, `0` for spacing, `1rem` for the
base font size, `none` for shadows and transitions), without reading the
tree: the results are literally independent of the tree contents, and
since the embedded functions are pure, repeated calls coincide. -/
theorem resolver_and_getters_not_ready_fallback_or_zero
    (themes : Option ThemeConfig) (ct : Option String)
    (cu : Option JValue) (sy : Option String) (t t2 : JValue)
    (p k : String) (fb : Option JValue) :
    getToken ⟨themes, ct, cu, false, sy⟩ p fb =
      (jsOrOpt fb (vStr ""), []) ∧
    getTokenValue false t p fb = (jsOrOpt fb (vStr ""), []) ∧
    getTokenValue false t p fb = getTokenValue false t2 p fb ∧
    getColor false t k fb = jsOrOpt fb (vStr "#000000") ∧
    getColor false t k fb = getColor false t2 k fb ∧
    getSpacing false t k fb = jsOrOpt fb (vStr "0") ∧
    getTypography false t k fb = jsOrOpt fb (vStr "1rem") ∧
    getShadow false t k fb = jsOrOpt fb (vStr "none") ∧
    getBorderRadius false t k fb = jsOrOpt fb (vStr "0") ∧
    getTransition false t k fb = jsOrOpt fb (vStr "none") ∧
    getFontWeight false t k fb = jsOrOpt fb (vNum 400) ∧
    getFontFamily false t k fb = jsOrOpt fb (vStr "sans-serif") :=
  ⟨rfl, rfl, rfl, rfl, rfl, rfl, rfl, rfl, rfl, rfl, rfl, rfl⟩

/-- Claim C4: for every name outside the `light`/`dark` enumeration,
`setTheme` emits the invalid-theme diagnostic and changes nothing: the
state is returned unchanged, the persistence write is not invoked and
the `onChange` observer is not notified. -/
theorem setTheme_invalid_name_rejected
    (st : ProviderState) (ep : Bool) (name : String)
    (h : isValidThemeStr name = false) :
    setTheme st ep name =
      { state := st, persisted := none, notified := none,
        warnings := ["Invalid theme: " ++ name ++
          ". Valid themes are: light, dark"] } := by
  simp [setTheme, h]

/-- Witness for C4 at the name `purple` of the specification. -/
theorem setTheme_invalid_name_rejected_witness :
    setTheme readyState true "purple" =
      { state := readyState, persisted := none, notified := none,
        warnings := ["Invalid theme: " ++ "purple" ++
          ". Valid themes are: light, dark"] } :=
  setTheme_invalid_name_rejected readyState true "purple" rfl

/-- Claim C10: when the resolver misses (path absent, provider not
hydrated, or no themes supplied) and the supplied fallback is falsy
(such as the number 0 or the empty string), `getToken` and
`getTokenValue` return the empty string instead of the fallback, so a
numeric fallback of 0 is never returned. -/
theorem getToken_falsy_fallback_returns_empty
    (st : ProviderState) (path : String) (fb : JValue)
    (hmiss : st.isHydrated = false ∨ st.themes = none ∨
      walkPath (effectiveTheme st) (splitPath path) = none)
    (hfb : jsTruthy fb = false) :
    (getToken st path (some fb)).1 = vStr "" ∧
    (getToken st path (some fb)).1 ≠ vNum 0 ∧
    (∀ theme, walkPath theme (splitPath path) = none →
      (getTokenValue true theme path (some fb)).1 = vStr "" ∧
      (getTokenValue false theme path (some fb)).1 = vStr "") := by
  have hor : jsOrOpt (some fb) (vStr "") = vStr "" := by
    simp [jsOrOpt, hfb]
  have h1 : (getToken st path (some fb)).1 = vStr "" := by
    cases hhy : st.isHydrated
    · simp [getToken, hhy, hor]
    · cases hth : st.themes
      · simp [getToken, hth, hor]
      · rcases hmiss with h | h | h
        · rw [hhy] at h
          cases h
        · rw [hth] at h
          cases h
        · simp [getToken, hhy, hth, h, hor]
  refine ⟨h1, ?_, ?_⟩
  · rw [h1]
    exact fun hcontra => JValue.noConfusion hcontra
  · intro theme hw
    constructor
    · simp [getTokenValue, hw, hor]
    · simp [getTokenValue, hor]

/-- Witness for C10: a fallback of 0 for an absent path yields the empty
string. -/
theorem getToken_falsy_fallback_returns_empty_witness :
    (getToken readyState "colors.missing" (some (vNum 0))).1 = vStr "" ∧
    (getToken readyState "colors.missing" (some (vNum 0))).1 ≠ vNum 0 ∧
    (∀ theme,
      walkPath theme (splitPath "colors.missing") = none →
      (getTokenValue true theme "colors.missing" (some (vNum 0))).1 =
        vStr "" ∧
      (getTokenValue false theme "colors.missing" (some (vNum 0))).1 =
        vStr "") :=
  getToken_falsy_fallback_returns_empty readyState "colors.missing"
    (vNum 0) (Or.inr (Or.inr rfl)) rfl

/-- Looking a key up in an appended field list inspects the left part
first, the JS property-resolution order after a spread. -/
theorem jsLookup_append (k : String) (a b : List (String × JValue)) :
    jsLookup k (a ++ b) = (jsLookup k a <|> jsLookup k b) := by
  induction a with
  | nil => simp [jsLookup]
  | cons kv rest ih =>
    cases hb : kv.1 == k with
    | true => simp [jsLookup, hb]
    | false => simp [jsLookup, hb, ih]

/-- In the overridden-keys part of a singleton spread, the overriding
value wins exactly when the key occurs in the base. -/
theorem jsLookup_map_singleton (a : List (String × JValue)) (k : String)
    (v : JValue) :
    jsLookup k (a.map (overrideWith [(k, v)])) =
    (if (jsLookup k a).isSome then some v else none) := by
  induction a with
  | nil => simp [jsLookup]
  | cons kv rest ih =>
    by_cases hk : kv.1 = k
    · subst hk
      have hov : overrideWith [(kv.1, v)] kv = (kv.1, v) := by
        simp [overrideWith, jsLookup]
      simp [hov, jsLookup]
    · have hb : (kv.1 == k) = false := beq_eq_false_iff_ne.mpr hk
      have hb2 : (k == kv.1) = false :=
        beq_eq_false_iff_ne.mpr (fun h => hk h.symm)
      have hov : overrideWith [(k, v)] kv = kv := by
        simp [overrideWith, jsLookup, hb2]
      simp [hov, jsLookup, hb, ih]

/-- Looking up the overridden key in a spread with a singleton override
always yields the overriding value: the override replaces the key when
the base has it and is appended otherwise. -/
theorem jsLookup_spreadFields_singleton (a : List (String × JValue))
    (k : String) (v : JValue) :
    jsLookup k (spreadFields a [(k, v)]) = some v := by
  unfold spreadFields
  rw [jsLookup_append, jsLookup_map_singleton]
  cases h : jsLookup k a
  · simp [h, List.filter, jsLookup]
  · simp [h]

/-- Unfolding one step of the resolver walk through a known child. -/
theorem walkPath_cons_child (v c : JValue) (k : String) (ks : List String)
    (h : jsChild v k = some c) :
    walkPath v (k :: ks) = walkPath c ks := by
  simp [walkPath, h]

/-- Claim C5: from a ready state with no prior override,
`updateTheme("colors.primary", "#ABC")` makes `getToken` return `#ABC`
for that path; the override is merged shallowly per top-level category
(the effective colors category becomes exactly the colors object of
the override); and a subsequent `resetCustomTheme` restores the state, hence
the pre-override `getToken` result. -/
theorem updateTheme_merge_and_reset
    (st : ProviderState) (cfg : ThemeConfig) (ct : String)
    (fb : Option JValue)
    (hh : st.isHydrated = true) (ht : st.themes = some cfg)
    (hct : st.currentTheme = some ct) (hcu : st.customTheme = none) :
    getToken (updateTheme st "colors.primary" (vStr "#ABC"))
      "colors.primary" fb = (vStr "#ABC", []) ∧
    jsChild
      (effectiveTheme (updateTheme st "colors.primary" (vStr "#ABC")))
      "colors" = some (vObj [("primary", vStr "#ABC")]) ∧
    resetCustomTheme (updateTheme st "colors.primary" (vStr "#ABC")) =
      st ∧
    getToken
      (resetCustomTheme (updateTheme st "colors.primary" (vStr "#ABC")))
      "colors.primary" fb = getToken st "colors.primary" fb := by
  have hds : deepSet (vObj []) (splitPath "colors.primary")
      (vStr "#ABC") = vObj [("colors", vObj [("primary", vStr "#ABC")])] :=
    rfl
  have hcu1 : (updateTheme st "colors.primary" (vStr "#ABC")).customTheme =
      some (vObj [("colors", vObj [("primary", vStr "#ABC")])]) := by
    simp [updateTheme, hcu, hds]
  have heff : effectiveTheme (updateTheme st "colors.primary" (vStr "#ABC")) =
      mergeSpread (if ct == "dark" then cfg.dark else cfg.light)
        (vObj [("colors", vObj [("primary", vStr "#ABC")])]) := by
    simp [effectiveTheme, updateTheme, ht, hct, hcu, hds]
  have hcolors : jsChild
      (effectiveTheme (updateTheme st "colors.primary" (vStr "#ABC")))
      "colors" = some (vObj [("primary", vStr "#ABC")]) := by
    rw [heff]
    exact jsLookup_spreadFields_singleton _ "colors" _
  have hwalk : walkPath
      (effectiveTheme (updateTheme st "colors.primary" (vStr "#ABC")))
      (splitPath "colors.primary") = some (vStr "#ABC") := by
    have hsp : splitPath "colors.primary" = ["colors", "primary"] := rfl
    rw [hsp, walkPath_cons_child _ _ _ _ hcolors]
    rfl
  have hh1 : (updateTheme st "colors.primary" (vStr "#ABC")).isHydrated =
      true := by
    simpa [updateTheme] using hh
  have ht1 : (updateTheme st "colors.primary" (vStr "#ABC")).themes =
      some cfg := by
    simpa [updateTheme] using ht
  have hreset : resetCustomTheme
      (updateTheme st "colors.primary" (vStr "#ABC")) = st := by
    cases st with
    | mk th c cu hy sy =>
      simp only at hcu
      simp [resetCustomTheme, updateTheme, hcu]
  refine ⟨?_, hcolors, hreset, ?_⟩
  · simp [getToken, hh1, ht1, hwalk]
  · rw [hreset]

/-- Witness for C5 at the sample ready state. -/
theorem updateTheme_merge_and_reset_witness :
    getToken (updateTheme readyState "colors.primary" (vStr "#ABC"))
      "colors.primary" (some (vStr "#zz")) = (vStr "#ABC", []) ∧
    jsChild
      (effectiveTheme
        (updateTheme readyState "colors.primary" (vStr "#ABC")))
      "colors" = some (vObj [("primary", vStr "#ABC")]) ∧
    resetCustomTheme
      (updateTheme readyState "colors.primary" (vStr "#ABC")) =
      readyState ∧
    getToken
      (resetCustomTheme
        (updateTheme readyState "colors.primary" (vStr "#ABC")))
      "colors.primary" (some (vStr "#zz")) =
      getToken readyState "colors.primary" (some (vStr "#zz")) :=
  updateTheme_merge_and_reset readyState sampleCfg "light"
    (some (vStr "#zz")) rfl rfl rfl rfl

/-- A hydrated provider state sitting on the dark variant whose detected
system preference is also dark. -/
def cycleStuckState : ProviderState :=
  { themes := some sampleCfg, currentTheme := some "dark",
    customTheme := none, isHydrated := true, systemTheme := some "dark" }

/-- Counterexample to claim C7 as stated: with the system preference
detected as dark, repeated `cycleTheme` calls from the dark variant stay
on dark forever (three successive calls shown), so the cycle never
returns to light as the claimed order light → dark → systemPreference →
light requires. -/
theorem cycleTheme_system_dark_never_returns_to_light :
    (cycleTheme cycleStuckState true).currentTheme = some "dark" ∧
    (cycleTheme (cycleTheme cycleStuckState true) true).currentTheme =
      some "dark" ∧
    (cycleTheme (cycleTheme (cycleTheme cycleStuckState true) true)
      true).currentTheme = some "dark" ∧
    (some "dark" : Option String) ≠ some "light" :=
  ⟨rfl, rfl, rfl, by decide⟩

/-- Claim C7 as amended: once hydrated, `cycleTheme` goes light → dark;
from dark it goes to the detected system preference when one exists and
to light otherwise (so with no system preference the cycle degenerates
to the binary toggle light → dark → light); from any other state it goes
to light; and when the system preference is dark, the dark state is a
fixed point, so the cycle never returns to light. -/
theorem cycleTheme_amended_behavior
    (st : ProviderState) (ep : Bool) (hh : st.isHydrated = true)
    (hsys : st.systemTheme = none ∨ st.systemTheme = some "light" ∨
      st.systemTheme = some "dark") :
    (st.currentTheme = some "light" →
      (cycleTheme st ep).currentTheme = some "dark") ∧
    (st.currentTheme = some "dark" →
      (cycleTheme st ep).currentTheme =
        some (jsOrStr st.systemTheme "light")) ∧
    (st.currentTheme ≠ some "light" → st.currentTheme ≠ some "dark" →
      (cycleTheme st ep).currentTheme = some "light") ∧
    (st.systemTheme = none → st.currentTheme = some "light" →
      (cycleTheme (cycleTheme st ep) ep).currentTheme = some "light") ∧
    (st.systemTheme = none → st.currentTheme = some "dark" →
      (cycleTheme (cycleTheme st ep) ep).currentTheme = some "dark") ∧
    (st.systemTheme = some "dark" → st.currentTheme = some "dark" →
      cycleTheme st ep = st) := by
  have hvl : isValidThemeStr "light" = true := rfl
  have hvd : isValidThemeStr "dark" = true := rfl
  have hne : ((some "dark" : Option String) == some "light") = false := by
    decide
  have hnel : ((some "light" : Option String) == some "dark") = false := by
    decide
  refine ⟨?_, ?_, ?_, ?_, ?_, ?_⟩
  · intro h
    simp [cycleTheme, hh, h, setTheme, hvd]
  · intro h
    rcases hsys with hs | hs | hs <;>
      simp [cycleTheme, hh, h, hne, setTheme, hvl, hvd, jsOrStr, hs]
  · intro h1 h2
    have hb1 : (st.currentTheme == some "light") = false :=
      beq_eq_false_iff_ne.mpr h1
    have hb2 : (st.currentTheme == some "dark") = false :=
      beq_eq_false_iff_ne.mpr h2
    simp [cycleTheme, hh, hb1, hb2, setTheme, hvl]
  · intro hs h
    simp [cycleTheme, hh, h, hs, setTheme, hvd, hvl, jsOrStr, hne]
  · intro hs h
    simp [cycleTheme, hh, h, hs, setTheme, hvd, hvl, jsOrStr, hne, hnel]
  · intro hs h
    cases st with
    | mk th c cu hy sy =>
      simp only [ProviderState.mk.injEq] at h hs
      simp [cycleTheme, hh, h, hs, hne, setTheme, hvd, jsOrStr]

/-- Witness for the amended C7 at the sample ready state (light variant,
no system preference). -/
theorem cycleTheme_amended_behavior_witness :
    (readyState.currentTheme = some "light" →
      (cycleTheme readyState true).currentTheme = some "dark") ∧
    (readyState.currentTheme = some "dark" →
      (cycleTheme readyState true).currentTheme =
        some (jsOrStr readyState.systemTheme "light")) ∧
    (readyState.currentTheme ≠ some "light" →
      readyState.currentTheme ≠ some "dark" →
      (cycleTheme readyState true).currentTheme = some "light") ∧
    (readyState.systemTheme = none →
      readyState.currentTheme = some "light" →
      (cycleTheme (cycleTheme readyState true) true).currentTheme =
        some "light") ∧
    (readyState.systemTheme = none →
      readyState.currentTheme = some "dark" →
      (cycleTheme (cycleTheme readyState true) true).currentTheme =
        some "dark") ∧
    (readyState.systemTheme = some "dark" →
      readyState.currentTheme = some "dark" →
      cycleTheme readyState true = readyState) :=
  cycleTheme_amended_behavior readyState true rfl (Or.inl rfl)

/-- Claim C9: `styled` hands every string value containing a dot to the
token resolver — so a dotted CSS literal like `1.5rem` is treated as a
token path and, when no such path exists in the tree, is replaced by the
per-property fallback or the empty string instead of passing through —
while strings without a dot and non-string values pass through
verbatim. -/
theorem styled_dot_strings_resolved_literals_passed
    (t : JValue) (prop s : String)
    (fbs : Option (List (String × JValue)))
    (pre post : List (String × JValue))
    (hdot : s.data.contains '.' = true)
    (hmiss : walkPath t (splitPath s) = none) :
    styled true t (pre ++ [(prop, vStr s)] ++ post) fbs =
      styled true t pre fbs ++
      [(prop, jsOrOpt (fbs.bind (jsLookup prop)) (vStr ""))] ++
      styled true t post fbs ∧
    (∀ s2 : String, s2.data.contains '.' = false →
      styled true t [(prop, vStr s2)] fbs = [(prop, vStr s2)]) ∧
    (∀ n : Int, styled true t [(prop, vNum n)] fbs = [(prop, vNum n)]) := by
  have hdot2 : '.' ∈ s.data := by simpa using hdot
  refine ⟨?_, ?_, ?_⟩
  · simp [styled, hdot2, getTokenValue, hmiss]
  · intro s2 h2
    have h22 : '.' ∉ s2.data := by simpa using h2
    simp [styled, h22]
  · intro n
    simp [styled]

/-- Witness for C9: the CSS literal `1.5rem` given as a style value is
resolved as the token path `1 → 5rem`, misses the sample tree, and comes
back as the empty string instead of `1.5rem`. -/
theorem styled_dot_strings_resolved_literals_passed_witness :
    styled true sampleLightTree
      ([] ++ [("fontSize", vStr "1.5rem")] ++ []) none =
      styled true sampleLightTree [] none ++
      [("fontSize",
        jsOrOpt (Option.bind none (jsLookup "fontSize")) (vStr ""))] ++
      styled true sampleLightTree [] none ∧
    (∀ s2 : String, s2.data.contains '.' = false →
      styled true sampleLightTree [("fontSize", vStr s2)] none =
        [("fontSize", vStr s2)]) ∧
    (∀ n : Int, styled true sampleLightTree [("fontSize", vNum n)] none =
      [("fontSize", vNum n)]) :=
  styled_dot_strings_resolved_literals_passed sampleLightTree "fontSize"
    "1.5rem" none [] [] rfl rfl

/-- Whether the first character list is a prefix of the second. -/
def headMatch : List Char → List Char → Bool
  | [], _ => true
  | _ :: _, [] => false
  | a :: as, b :: bs => a == b && headMatch as bs

/-- Whether the first character list occurs contiguously anywhere inside
the second (used to check which identifiers a diagnostic mentions). -/
def subMatch (needle : List Char) : List Char → Bool
  | [] => needle.isEmpty
  | c :: rest => headMatch needle (c :: rest) || subMatch needle rest

/-- A Theme-shaped token tree containing every required dotted path of
the specification under its proper category, with well-formed values
throughout; the light `fontWeight` for the `light` key is a
parameter so the same tree can be instantiated with an in-range and an
out-of-range weight. -/
def completeThemeWeight (lightWeight : Int) : JValue :=
  vObj [
    ("colors", vObj [
      ("primary", vStr "#4361ee"), ("secondary", vStr "#3f37c9"),
      ("accent", vStr "#4895ef"), ("background", vStr "#ffffff"),
      ("surface", vStr "#f8f9fa"),
      ("text", vObj [
        ("primary", vStr "#212529"), ("secondary", vStr "#6c757d"),
        ("disabled", vStr "#adb5bd")]),
      ("border", vStr "#dee2e6"), ("error", vStr "#dc3545"),
      ("warning", vStr "#ffc107"), ("success", vStr "#28a745"),
      ("info", vStr "#17a2b8")]),
    ("spacing", vObj [
      ("xs", vStr "0.25rem"), ("sm", vStr "0.5rem"), ("md", vStr "1rem"),
      ("lg", vStr "1.5rem"), ("xl", vStr "3rem"), ("xxl", vStr "4rem"),
      ("scale", vFun)]),
    ("typography", vObj [
      ("fontFamily", vObj [
        ("primary", vStr "Arial, sans serif"), ("secondary", vStr "Georgia"),
        ("mono", vStr "monospace")]),
      ("fontSize", vObj [
        ("xs", vStr "0.75rem"), ("sm", vStr "0.875rem"),
        ("base", vStr "1rem"), ("lg", vStr "1.125rem"),
        ("xl", vStr "1.25rem"), ("2xl", vStr "1.5rem"),
        ("3xl", vStr "1.875rem"), ("4xl", vStr "2.25rem")]),
      ("fontWeight", vObj [
        ("light", vNum lightWeight), ("normal", vNum 400),
        ("medium", vNum 500), ("semibold", vNum 600), ("bold", vNum 700)]),
      ("lineHeight", vObj [
        ("tight", vStr "1.25"), ("normal", vStr "1.5"),
        ("relaxed", vStr "1.75")])]),
    ("shadows", vObj [("sm", vStr "0 1px 2px 0 rgba(0, 0, 0, 0.05)")]),
    ("borderRadius", vObj [("md", vStr "0.375rem")]),
    ("breakpoints", vObj [("md", vStr "768px")]),
    ("transitions", vObj [("fast", vStr "150ms")]),
    ("zIndex", vObj [("modal", vNum 1400)])]

/-- The complete, well-formed tree with an ordinary in-range light
weight. -/
def completeTheme : JValue := completeThemeWeight 300

/-- Claim C6 against the code (code bug): the default lenient validator
REJECTS a configuration whose two variants are the complete, well-formed
tree, reporting `Missing required color property: primary in light
theme` (and the like for every required leaf), because `validateTheme`
looks the required properties up at the TOP level of the theme object
instead of under their category; no emitted error mentions the dotted
name `colors.primary`. The last conjunct checks the claim part that does
hold: `isValid` always equals emptiness of `errors`. -/
theorem validateThemeConfig_rejects_complete_config :
    (themeValidatorValidate (some completeTheme)
      (some completeTheme)).isValid = false ∧
    (themeValidatorValidate (some completeTheme)
      (some completeTheme)).errors.contains
      "Missing required color property: primary in light theme" = true ∧
    (themeValidatorValidate (some completeTheme)
      (some completeTheme)).errors.any
      (fun e => subMatch "colors.primary".data e.data) = false ∧
    (∀ l d, (themeValidatorValidate l d).isValid =
      (themeValidatorValidate l d).errors.isEmpty) :=
  ⟨rfl, rfl, rfl, fun _ _ => rfl⟩

/-- Claim C8 against the code (code bug): in the tree whose
`typography.fontWeight.light` is the out-of-range number 1000 (present,
as the first conjunct shows, and rejected by `validateTypography`), the
validator does NOT record a warning for the weight: it emits the
missing-property ERROR `Missing required typography property:
fontWeight.light in light theme` (top-level lookup), emits no warnings
at all, and the otherwise complete and well-formed config comes out
`isValid = false` even in lenient mode. -/
theorem validateTheme_out_of_range_weight_reported_missing :
    getNestedValue (completeThemeWeight 1000)
      "typography.fontWeight.light" = some (vNum 1000) ∧
    validateTypography (vNum 1000) = false ∧
    (themeValidatorValidate (some (completeThemeWeight 1000))
      (some (completeThemeWeight 1000))).errors.contains
      "Missing required typography property: fontWeight.light in light theme"
      = true ∧
    (themeValidatorValidate (some (completeThemeWeight 1000))
      (some (completeThemeWeight 1000))).warnings.isEmpty = true ∧
    (themeValidatorValidate (some (completeThemeWeight 1000))
      (some (completeThemeWeight 1000))).isValid = false :=
  ⟨rfl, rfl, rfl, rfl, rfl⟩

end ThemeSystem
